import Mathlib

/-!
Shallow embedding of the VVQuest HTTP boundary layer (src/api.py) and the
pieces of the embedding/search core it calls.  Handlers are modelled as pure
functions from an explicit process state to a response together with the
successor state.  Parts of the core that are not in the repository snapshot
(the bodies of `ImageSearch` and `ModelRegistry` methods) are modelled from
the specification and marked as such in their doc comments.
-/

namespace VVQuest

/-- An HTTP response produced by a handler in src/api.py: the status code
(200 for a normal return, otherwise the status of the raised HTTPException)
and the message or detail string of the JSON body. -/
structure Response where
  status : Nat
  message : String
  deriving DecidableEq

/-- The observable state of the api.py process.  `mode` and `model_name` are
the fields of the module-level `search_engine` (ImageSearch); `api_key`,
`base_url` and `saveCount` belong to the module-level `config` (Config),
with `saveCount` counting calls to `config.save()`; `hasCache` is the value
of `search_engine.has_cache()`; `genTasks` counts the cache-generation
background tasks scheduled so far; `downloaded` is the set of model ids whose
weight artifacts are on disk (`is_model_downloaded`); `catalog` is the key
set of the static `Config().models.embedding_models` catalog; `device` is
`search_engine.embedding_service.device`. -/
structure SysState where
  mode : String
  model_name : String
  api_key : String
  base_url : String
  saveCount : Nat
  hasCache : Bool
  genTasks : Nat
  downloaded : List String
  catalog : List String
  device : String
  deriving DecidableEq

/-- Embeds the module initialization at src/api.py lines 12-13:
`config = Config()` followed by
`search_engine = ImageSearch(mode='api', model_name=config.models.default_model)`.
The configuration contents (default model, credentials, catalog), the on-disk
model set and the cache presence are inputs read from the environment; the
engine mode is the literal string passed at line 13. -/
def initState (default_model key url : String)
    (catalog downloaded : List String) (hasCache : Bool) : SysState :=
  { mode := "api"
    model_name := default_model
    api_key := key
    base_url := url
    saveCount := 0
    hasCache := hasCache
    genTasks := 0
    downloaded := downloaded
    catalog := catalog
    device := "" }

/-- Embeds GET /config (src/api.py lines 49-57): reports the engine mode, the
active model name and the configured credential pair, in that order. -/
def get_config (s : SysState) : String × String × String × String :=
  (s.mode, s.model_name, s.api_key, s.base_url)

/-- Embeds POST /generate-cache (src/api.py lines 41-47): if
`search_engine.has_cache()` is false, schedule `search_engine.generate_cache`
as a background task and answer that generation started; otherwise answer
that the cache already exists and schedule nothing. -/
def generate_cache (s : SysState) : Response × SysState :=
  if ¬ s.hasCache then
    (⟨200, "Cache generation started"⟩, { s with genTasks := s.genTasks + 1 })
  else
    (⟨200, "Cache already exists"⟩, s)

/-- The body of a PUT /config request (src/api.py lines 20-22): both fields
are `Optional[str]` defaulting to None. -/
structure ConfigUpdate where
  api_key : Option String
  base_url : Option String
  deriving DecidableEq

/-- Embeds PUT /config (src/api.py lines 59-70): `if update.api_key:` and
`if update.base_url:` guard each assignment by Python truthiness, under which
both None and the empty string are falsy; `config.save()` runs on every call
that reaches it, whether or not a field changed. -/
def update_config (s : SysState) (u : ConfigUpdate) : Response × SysState :=
  let s1 :=
    match u.api_key with
    | some k => if k != "" then { s with api_key := k } else s
    | none => s
  let s2 :=
    match u.base_url with
    | some b => if b != "" then { s1 with base_url := b } else s1
    | none => s1
  (⟨200, "Config updated successfully"⟩, { s2 with saveCount := s2.saveCount + 1 })

/-- Result of `search_engine.embedding_service.is_model_downloaded(m)`.
Modelled from the spec: `ModelRegistry.is_downloaded` (§4.2) reports whether
the weight artifact for the model is on disk; its body is not under src/. -/
def is_model_downloaded (s : SysState) (m : String) : Bool :=
  s.downloaded.contains m

/-- Modelled from the spec: the body of `search_engine.download_model(m)`
(`ModelRegistry.download`, §4.2) is not under src/; on success it fetches and
persists the weight artifact, after which the model counts as downloaded. -/
def registryDownload (s : SysState) (m : String) : SysState :=
  { s with downloaded := m :: s.downloaded }

/-- Embeds POST /download-model (src/api.py lines 72-82): when
`is_model_downloaded` already holds the handler returns at once without
calling the download; otherwise it performs the download and reports
completion.  The success path of the core download is modelled by
`registryDownload`; its exception path is `download_model_exc` below. -/
def download_model (s : SysState) (m : String) : Response × SysState :=
  if is_model_downloaded s m then
    (⟨200, "Model already exists"⟩, s)
  else
    (⟨200, "Model download completed"⟩, registryDownload s m)

/-- The names bound at module level in src/api.py: the imports at lines 1-7
(`from fastapi import FastAPI, HTTPException, BackgroundTasks`,
`from pydantic import BaseModel`, `from typing import List, Optional`,
`import yaml`, `import os`, `from services.image_search import ImageSearch`,
`from config.settings import Config`) and the globals defined afterwards.
The name `torch` is not among them, so evaluating `torch` at line 134 of the
module raises NameError. -/
def api_module_globals : List String :=
  ["FastAPI", "HTTPException", "BackgroundTasks", "BaseModel", "List",
   "Optional", "yaml", "os", "ImageSearch", "Config", "app", "config",
   "search_engine", "SearchRequest", "ConfigUpdate", "ModelDownloadRequest",
   "search_images", "generate_cache", "get_config", "update_config",
   "download_model", "list_models", "switch_mode", "switch_model"]

/-- Embeds PUT /model/\x7bmodel_id\x7d (src/api.py lines 108-152), in source
order: reject with 400 unless the engine mode is the literal "local"; reject
with 404 unless the model id is a key of the static catalog; reject with 412
unless the model is downloaded; then line 134 evaluates the name `torch`,
which is looked up among the module-level names — if it resolved, the handler
would set the device and call `set_mode('local', model_id)` (that arm models
`set_mode` from the spec, §4.5: on success the mode becomes LOCAL with the
given model); since `torch` is not bound, NameError is raised, caught by the
generic `except Exception` clause at lines 146-152 and mapped to HTTP 500,
with the engine state untouched. -/
def switch_model (s : SysState) (model_id : String) : Response × SysState :=
  if s.mode != "local" then
    (⟨400, "必须先切换到本地模式再切换模型"⟩, s)
  else if ¬ s.catalog.contains model_id then
    (⟨404, "模型 " ++ model_id ++ " 未在配置中定义"⟩, s)
  else if ¬ s.downloaded.contains model_id then
    (⟨412, "模型 " ++ model_id ++ " 尚未下载"⟩, s)
  else if api_module_globals.contains ("torch") then
    (⟨200, "成功切换到模型 " ++ model_id⟩,
      { s with mode := "local", model_name := model_id })
  else
    (⟨500, "模型加载失败: name \x27torch\x27 is not defined"⟩, s)

/-- The kinds of error the core can raise, from the error taxonomy of the
spec (§7).  Modelled from the spec: the exception classes themselves are
defined in core modules not under src/. -/
inductive CoreError where
  | providerError
  | modelNotFoundError
  | modelNotDownloadedError
  | downloadIntegrityError
  | engineBusyError
  | invalidModeError
  deriving DecidableEq

/-- str(e) for each core error kind: a distinct message per kind, which is
all the handlers below preserve of the exception. -/
def errStr : CoreError → String
  | .providerError => "ProviderError"
  | .modelNotFoundError => "ModelNotFoundError"
  | .modelNotDownloadedError => "ModelNotDownloadedError"
  | .downloadIntegrityError => "DownloadIntegrityError"
  | .engineBusyError => "EngineBusyError"
  | .invalidModeError => "InvalidModeError"

/-- Embeds POST /search (src/api.py lines 28-39): the core call
`search_engine.search(...)` either returns a result list or raises some
exception; the handler's `except Exception` clause maps every exception to
HTTP 500 with detail str(e). -/
def search_images (coreResult : Except CoreError (List String)) : Response :=
  match coreResult with
  | .ok _ => ⟨200, "results"⟩
  | .error e => ⟨500, errStr e⟩

/-- Embeds the `except Exception` clause of POST /download-model
(src/api.py lines 81-82): every exception raised by the core download is
mapped to HTTP 500 with detail str(e). -/
def download_model_exc (e : CoreError) : Response :=
  ⟨500, errStr e⟩

/-- C1: when the engine is in local mode and the requested model is in the
static catalog but not downloaded, PUT /model fails with the distinct
precondition-failure status 412, and the whole engine state — mode and
active model as reported by GET /config included — is unchanged. -/
theorem C1_switch_undownloaded_412 (s : SysState) (m : String)
    (hmode : s.mode = "local") (hcat : m ∈ s.catalog)
    (hdl : m ∉ s.downloaded) :
    (switch_model s m).1.status = 412 ∧ (switch_model s m).2 = s ∧
    get_config ((switch_model s m).2) = get_config s := by
  simp [switch_model, hmode, hcat, hdl]

/-- Witness for C1 at a concrete state: local mode, catalog holds m1, m1 not
downloaded. -/
theorem C1_witness :
    (switch_model ⟨"local", "m0", "", "", 0, false, 0, [], ["m1"], ""⟩ "m1").1.status = 412 ∧
    (switch_model ⟨"local", "m0", "", "", 0, false, 0, [], ["m1"], ""⟩ "m1").2
      = ⟨"local", "m0", "", "", 0, false, 0, [], ["m1"], ""⟩ ∧
    get_config ((switch_model ⟨"local", "m0", "", "", 0, false, 0, [], ["m1"], ""⟩ "m1").2)
      = get_config ⟨"local", "m0", "", "", 0, false, 0, [], ["m1"], ""⟩ :=
  C1_switch_undownloaded_412 _ _ rfl (by decide) (by decide)

/-- C2: when every declared validation of PUT /model passes (mode local,
model in the catalog and downloaded), the handler body evaluates the unbound
name `torch`, raises NameError, and the generic exception clause maps the
call to HTTP 500 with the NameError text; the state is unchanged, so the
switch can never succeed through this endpoint. -/
theorem C2_switch_valid_name_error_500 (s : SysState) (m : String)
    (hmode : s.mode = "local") (hcat : m ∈ s.catalog)
    (hdl : m ∈ s.downloaded) :
    (switch_model s m).1.status = 500 ∧
    (switch_model s m).1.message = "模型加载失败: name \x27torch\x27 is not defined" ∧
    (switch_model s m).2 = s := by
  have htorch : "torch" ∉ api_module_globals := by decide
  simp [switch_model, hmode, hcat, hdl, htorch]

/-- Witness for C2 at a concrete state: local mode, m1 in the catalog and
downloaded. -/
theorem C2_witness :
    (switch_model ⟨"local", "m0", "", "", 0, false, 0, ["m1"], ["m1"], ""⟩ "m1").1.status = 500 ∧
    (switch_model ⟨"local", "m0", "", "", 0, false, 0, ["m1"], ["m1"], ""⟩ "m1").1.message
      = "模型加载失败: name \x27torch\x27 is not defined" ∧
    (switch_model ⟨"local", "m0", "", "", 0, false, 0, ["m1"], ["m1"], ""⟩ "m1").2
      = ⟨"local", "m0", "", "", 0, false, 0, ["m1"], ["m1"], ""⟩ :=
  C2_switch_valid_name_error_500 _ _ rfl (by decide) (by decide)

/-- C3: evaluation of the code at the failing input.  Starting from the
initial state with no cache, a first POST /generate-cache schedules a
generation task; a second POST issued while that task is still running (so
`has_cache()` is still false) again answers that generation started and
schedules a second concurrent generation task, instead of a busy signal. -/
theorem C3_second_generate_starts_second_run :
    (generate_cache ((generate_cache (initState ("m0") ("") ("") [] [] false)).2)).1.message
      = "Cache generation started" ∧
    (generate_cache ((generate_cache (initState ("m0") ("") ("") [] [] false)).2)).2.genTasks
      = 2 := by
  decide

/-- C4: the download operation is idempotent at the boundary: after a first
call for model m the model is downloaded, and a second call in sequence
returns success reporting the model already exists, performing no re-download
and leaving the state unchanged. -/
theorem C4_download_idempotent (s : SysState) (m : String) :
    is_model_downloaded ((download_model s m).2) m = true ∧
    (download_model ((download_model s m).2) m).1 = ⟨200, "Model already exists"⟩ ∧
    (download_model ((download_model s m).2) m).2 = (download_model s m).2 := by
  by_cases h : is_model_downloaded s m
  · simp [download_model, h]
  · have h2 : is_model_downloaded (registryDownload s m) m = true := by
      simp [is_model_downloaded, registryDownload]
    simp [download_model, h, h2]

/-- C5 counterexample: the claim that POST /search and POST /download-model
surface each error kind with a distinct status signal fails at concrete
inputs — a catalog miss (not-found) and a provider failure (server-error)
both come back as the same generic 500 from /search, and a catalog miss and
an integrity failure get the same status from /download-model. -/
theorem C5_counterexample :
    (search_images (Except.error CoreError.modelNotFoundError)).status = 500 ∧
    (search_images (Except.error CoreError.providerError)).status = 500 ∧
    (download_model_exc CoreError.modelNotFoundError).status
      = (download_model_exc CoreError.downloadIntegrityError).status ∧
    (download_model_exc CoreError.modelNotFoundError).status = 500 := by
  decide

/-- C5 amended: POST /search and POST /download-model map every exception
kind raised by the core to the same generic HTTP 500 status; only the detail
string distinguishes kinds. -/
theorem C5_all_errors_map_to_500 (e : CoreError) :
    (search_images (Except.error e)).status = 500 ∧
    (download_model_exc e).status = 500 := by
  cases e <;> exact ⟨rfl, rfl⟩

/-- C6: a PUT /model request made while the engine mode is the remote mode
"api" fails with 400 before any model validation — for every catalog and
download set, even one not containing the model — and the state is
unchanged. -/
theorem C6_switch_in_api_mode_400 (s : SysState) (m : String)
    (hmode : s.mode = "api") :
    (switch_model s m).1.status = 400 ∧ (switch_model s m).2 = s := by
  simp [switch_model, hmode]

/-- Witness for C6 at a concrete state in mode "api", with a model id absent
from both catalog and download set. -/
theorem C6_witness :
    (switch_model ⟨"api", "m0", "", "", 0, false, 0, [], [], ""⟩ "m1").1.status = 400 ∧
    (switch_model ⟨"api", "m0", "", "", 0, false, 0, [], [], ""⟩ "m1").2
      = ⟨"api", "m0", "", "", 0, false, 0, [], [], ""⟩ :=
  C6_switch_in_api_mode_400 _ _ rfl

/-- C7 counterexample: the claim quantifies over every model id absent from
the catalog, but when the engine is in mode "api" such a request fails with
400 (the mode check runs first), not 404. -/
theorem C7_counterexample :
    (switch_model ⟨"api", "m0", "", "", 0, false, 0, [], [], ""⟩ "ghost").1.status = 400 ∧
    ¬ (switch_model ⟨"api", "m0", "", "", 0, false, 0, [], [], ""⟩ "ghost").1.status = 404 := by
  decide

/-- C7 amended: when the engine is in local mode, a PUT /model request for a
model id absent from the static catalog fails with 404 — distinct from the
412 not-downloaded precondition failure — and the state is unchanged. -/
theorem C7_absent_model_404 (s : SysState) (m : String)
    (hmode : s.mode = "local") (hcat : m ∉ s.catalog) :
    (switch_model s m).1.status = 404 ∧ (switch_model s m).2 = s := by
  simp [switch_model, hmode, hcat]

/-- Witness for C7 amended at a concrete state: local mode, empty catalog. -/
theorem C7_witness :
    (switch_model ⟨"local", "m0", "", "", 0, false, 0, [], [], ""⟩ "ghost").1.status = 404 ∧
    (switch_model ⟨"local", "m0", "", "", 0, false, 0, [], [], ""⟩ "ghost").2
      = ⟨"local", "m0", "", "", 0, false, 0, [], [], ""⟩ :=
  C7_absent_model_404 _ _ rfl (by decide)

/-- C8: immediately after module initialization, before any set_mode call,
the engine mode is the remote mode "api", and GET /config reports it. -/
theorem C8_init_mode_remote (default_model key url : String)
    (catalog downloaded : List String) (hasCache : Bool) :
    (initState default_model key url catalog downloaded hasCache).mode = "api" ∧
    (get_config (initState default_model key url catalog downloaded hasCache)).1 = "api" :=
  ⟨rfl, rfl⟩

/-- C9: whenever `has_cache()` is true, POST /generate-cache answers that the
cache already exists, schedules no background generation task, and leaves the
whole state — the cache included — unchanged, so the cache is never
regenerated through this endpoint once any cache exists. -/
theorem C9_generate_cache_noop_when_cache_exists (s : SysState)
    (h : s.hasCache = true) :
    (generate_cache s).1.message = "Cache already exists" ∧
    (generate_cache s).2.genTasks = s.genTasks ∧
    (generate_cache s).2 = s := by
  simp [generate_cache, h]

/-- Witness for C9 at a concrete state whose cache exists. -/
theorem C9_witness :
    (generate_cache ⟨"api", "m0", "", "", 0, true, 0, [], [], ""⟩).1.message
      = "Cache already exists" ∧
    (generate_cache ⟨"api", "m0", "", "", 0, true, 0, [], [], ""⟩).2.genTasks = 0 ∧
    (generate_cache ⟨"api", "m0", "", "", 0, true, 0, [], [], ""⟩).2
      = ⟨"api", "m0", "", "", 0, true, 0, [], [], ""⟩ :=
  C9_generate_cache_noop_when_cache_exists _ rfl

/-- C10: PUT /config mutates only fields supplied with truthy values — an
omitted, None or empty api_key (likewise base_url) leaves the stored value
unchanged; a non-empty stored credential can never become empty through this
endpoint; `config.save()` runs on every non-erroring call, whether or not a
field changed; and the call reports success. -/
theorem C10_update_config_frame (s : SysState) (u : ConfigUpdate) :
    ((u.api_key = none ∨ u.api_key = some "") →
      ((update_config s u).2).api_key = s.api_key) ∧
    ((u.base_url = none ∨ u.base_url = some "") →
      ((update_config s u).2).base_url = s.base_url) ∧
    ((update_config s u).2).saveCount = s.saveCount + 1 ∧
    (s.api_key ≠ "" → ((update_config s u).2).api_key ≠ "") ∧
    (update_config s u).1.status = 200 := by
  rcases u with ⟨uk, ub⟩
  rcases uk with _ | k
  · rcases ub with _ | b
    · simp [update_config]
    · by_cases hb : b = "" <;> simp [update_config, hb]
  · rcases ub with _ | b
    · by_cases hk : k = "" <;> simp [update_config, hk]
    · by_cases hk : k = "" <;> by_cases hb : b = "" <;> simp [update_config, hk, hb]

/-- Witness for C10 at a concrete state and a request carrying an empty
api_key and no base_url. -/
theorem C10_witness :
    ((ConfigUpdate.mk (some "") none).api_key = none ∨
      (ConfigUpdate.mk (some "") none).api_key = some "") ∧
    ((update_config ⟨"api", "m0", "k0", "u0", 0, false, 0, [], [], ""⟩
        (ConfigUpdate.mk (some "") none)).2).api_key = "k0" := by
  refine ⟨Or.inr rfl, ?_⟩
  exact (C10_update_config_frame ⟨"api", "m0", "k0", "u0", 0, false, 0, [], [], ""⟩
    (ConfigUpdate.mk (some "") none)).1 (Or.inr rfl)

end VVQuest
